import Mathlib

/-!
# Verification of the peg-maintenance engine (`src/stable.rs`)

A shallow embedding of the peg-maintenance decision engine of the `endur`
repository.  The two functions under study are `update_balances` (the
Balance Reconciler) and `check_stability` (the Stability Decision Engine),
both in `src/stable.rs`.  External collaborators (the node runtime, the
price oracle cache/fetch, the payment trigger, the audit sink) are modelled
as explicit inputs and outputs: the node is a record of the balances it
would report, oracle answers are fields of an `Oracle` record, the audit
sink is an output list of events, and the payment trigger's outcome is an
`Except` input.

Machine integers (`u64`) are modelled as `Nat`; the one subtraction in the
code (`channel_value_sats - our_balance_sats`) has no guard in the source,
so it is modelled as a checked subtraction returning `Option` — `none`
models the arithmetic underflow (a panic in a debug build).  `f64` price
and USD arithmetic is modelled exactly over `ℚ`.
-/

/-- `ChannelId` is an opaque 32-byte identifier; we model it as a list of
byte values, compared for exact equality like the source. -/
abbrev ChannelId := List Nat

/-- `ChannelId::from_bytes` — build a channel id from its bytes. -/
def ChannelId.from_bytes (bs : List Nat) : ChannelId := bs

/-- The all-zero sentinel `ChannelId::from_bytes([0; 32])` meaning
"channel not yet adopted". -/
def zeroChannelId : ChannelId := ChannelId.from_bytes (List.replicate 32 0)

/-- Modelled from the spec: the `Bitcoin` monetary type of the missing
`types` module is a BaseAmount, "an exact integer count of the smallest
base-currency unit" (satoshis). -/
abbrev Bitcoin := Nat

/-- `Bitcoin::from_sats`. -/
def Bitcoin.from_sats (n : Nat) : Bitcoin := n

/-- Modelled from the spec: the `USD` monetary type of the missing `types`
module is a QuoteAmount; we carry it as an exact rational. -/
abbrev USD := ℚ

/-- Modelled from the spec: `USD::from_bitcoin` follows the conversion
invariant `QuoteAmount = BaseAmount × price` with the price quoted per
whole base unit (10^8 satoshis). -/
def USD.from_bitcoin (b : Bitcoin) (price : ℚ) : USD :=
  (b : ℚ) / 100000000 * price

/-- Modelled from the spec: `USD::to_msats` converts a USD amount to the
channel protocol's smallest payable unit (base-unit-per-thousandth,
i.e. millisatoshis) at the given price, via `BaseAmount = QuoteAmount / price`. -/
def USD.to_msats (d : USD) (price : ℚ) : ℚ :=
  d / price * 100000000 * 1000

/-- One channel as reported by the node runtime's `list_channels`. -/
structure ChannelDetails where
  channel_id : ChannelId
  channel_value_sats : Nat
  outbound_capacity_msat : Nat
  unspendable_punishment_reserve : Option Nat
deriving DecidableEq, Repr

/-- The node runtime, reduced to the data `update_balances` reads from it:
`list_balances().total_onchain_balance_sats` and `list_channels()`. -/
structure Node where
  total_onchain_balance_sats : Nat
  channels : List ChannelDetails
deriving DecidableEq, Repr

/-- The price oracle collaborator: `get_cached_price()` (0 = unavailable)
and the result of `get_latest_price(agent)`. -/
structure Oracle where
  cached_price : ℚ
  fetched_price : Except Unit ℚ
deriving Repr

/-- Modelled from the spec: the `StableChannel` record of the missing
`types` module, the PegTracker of the spec's data model.  Fields are
exactly those `stable.rs` reads and writes. -/
structure StableChannel where
  channel_id : ChannelId
  is_receiver : Bool
  counterparty : Nat
  expected_usd : USD
  latest_price : ℚ
  onchain_btc : Bitcoin
  onchain_usd : USD
  receiver_btc : Bitcoin
  receiver_usd : USD
  provider_btc : Bitcoin
  provider_usd : USD
  risk_level : Nat
  payment_made : Bool
deriving DecidableEq, Repr

/-- Modelled from the spec: audit events recorded through `audit_event` of
the missing `audit` module, as a pure value carrying the payload fields the
source serializes. -/
inductive AuditEvent where
  | BALANCE_UPDATE (channel_id : ChannelId) (receiver_btc provider_btc : Bitcoin)
      (receiver_usd provider_usd : USD) (btc_price : ℚ)
  | STABILITY_SKIP
  | BALANCE_UPDATE_FAILED (channel_id : ChannelId)
  | STABILITY_CHECK (expected_usd current_receiver_usd percent_from_par btc_price : ℚ)
      (action : String) (is_receiver : Bool) (risk_level : Nat)
  | STABILITY_PAYMENT_SENT (amount_msats : ℚ) (payment_id : Nat) (counterparty : Nat)
  | STABILITY_PAYMENT_FAILED (amount_msats : ℚ) (counterparty : Nat)
deriving DecidableEq, Repr

/-- The event-type tag of an audit event, as the source's first argument to
`audit_event`. -/
def AuditEvent.tag : AuditEvent → String
  | .BALANCE_UPDATE _ _ _ _ _ _ => "BALANCE_UPDATE"
  | .STABILITY_SKIP => "STABILITY_SKIP"
  | .BALANCE_UPDATE_FAILED _ => "BALANCE_UPDATE_FAILED"
  | .STABILITY_CHECK _ _ _ _ _ _ _ => "STABILITY_CHECK"
  | .STABILITY_PAYMENT_SENT _ _ _ => "STABILITY_PAYMENT_SENT"
  | .STABILITY_PAYMENT_FAILED _ _ => "STABILITY_PAYMENT_FAILED"

/-- The `action` field of a `STABILITY_CHECK` event, when the event is one. -/
def AuditEvent.checkAction : AuditEvent → Option String
  | .STABILITY_CHECK _ _ _ _ a _ _ => some a
  | _ => none

/-- The `percent_from_par` field of a `STABILITY_CHECK` event. -/
def AuditEvent.checkPercent : AuditEvent → Option ℚ
  | .STABILITY_CHECK _ _ p _ _ _ _ => some p
  | _ => none

/-- `get_current_price`: prefer the cached price when positive, else the
fresh fetch, a failed fetch yielding `0.0`. -/
def get_current_price (oracle : Oracle) : ℚ :=
  if oracle.cached_price > 0 then oracle.cached_price
  else
    match oracle.fetched_price with
    | .ok price => price
    | .error _ => 0

/-- Checked `u64` subtraction: Rust `a - b` on unsigned integers underflows
(panics in a debug build) when `b > a`; there is no guard in the source. -/
def u64_sub (a b : Nat) : Option Nat :=
  if b ≤ a then some (a - b) else none

/-- Channel selection in `update_balances`: the all-zero sentinel adopts
the first reported channel, otherwise find the exact id match. -/
def selectChannel (channels : List ChannelDetails) (id : ChannelId) : Option ChannelDetails :=
  if id = zeroChannelId then channels.head?
  else channels.find? (fun c => c.channel_id = id)

/-- The price `update_balances` ends up with: the stored price when
nonzero, else the cache, else `get_current_price` (cache again, then a
fresh fetch). -/
def resolved_price (oracle : Oracle) (latest_price : ℚ) : ℚ :=
  if latest_price = 0 then
    if oracle.cached_price = 0 then get_current_price oracle
    else oracle.cached_price
  else latest_price

/-- The body of `update_balances`'s `if let Some(channel)` branch: adopt
the channel id when the sentinel is set, split the capacity into our/their
side, assign by `is_receiver`, convert to USD, emit `BALANCE_UPDATE`.
`none` models the underflow of the unguarded `u64` subtraction. -/
def reconcile_channel (channel : ChannelDetails) (sc2 : StableChannel) :
    Option (StableChannel × List AuditEvent) :=
  let sc3 :=
    if sc2.channel_id = zeroChannelId then { sc2 with channel_id := channel.channel_id }
    else sc2
  let unspendable_punishment_sats := channel.unspendable_punishment_reserve.getD 0
  let our_balance_sats := channel.outbound_capacity_msat / 1000 + unspendable_punishment_sats
  match u64_sub channel.channel_value_sats our_balance_sats with
  | none => none
  | some their_balance_sats =>
    let sc4 :=
      if sc3.is_receiver then
        { sc3 with
          receiver_btc := Bitcoin.from_sats our_balance_sats
          provider_btc := Bitcoin.from_sats their_balance_sats }
      else
        { sc3 with
          provider_btc := Bitcoin.from_sats our_balance_sats
          receiver_btc := Bitcoin.from_sats their_balance_sats }
    let sc5 := { sc4 with
      receiver_usd := USD.from_bitcoin sc4.receiver_btc sc4.latest_price
      provider_usd := USD.from_bitcoin sc4.provider_btc sc4.latest_price }
    some (sc5,
      [AuditEvent.BALANCE_UPDATE sc5.channel_id sc5.receiver_btc sc5.provider_btc
        sc5.receiver_usd sc5.provider_usd sc5.latest_price])

/-- The tracker after `update_balances`'s price resolution and on-chain
refresh, just before channel selection. -/
def balance_refreshed (node : Node) (oracle : Oracle) (sc0 : StableChannel) :
    StableChannel :=
  let onchain := Bitcoin.from_sats node.total_onchain_balance_sats
  let price1 := resolved_price oracle sc0.latest_price
  { sc0 with
    latest_price := price1
    onchain_btc := onchain
    onchain_usd := USD.from_bitcoin onchain price1 }

/-- `update_balances` from `src/stable.rs`.  Returns `none` when the
unsigned subtraction underflows; otherwise `some` of the returned success
flag, the mutated `StableChannel`, and the audit events emitted. -/
def update_balances (node : Node) (oracle : Oracle) (sc0 : StableChannel) :
    Option (Bool × StableChannel × List AuditEvent) :=
  let sc2 := balance_refreshed node oracle sc0
  match selectChannel node.channels sc2.channel_id with
  | some channel =>
    (reconcile_channel channel sc2).map (fun p => (true, p.1, p.2))
  | none => some (true, sc2, [])

/-- The action string selected by `check_stability`, transcribed from the
source's if-chain. -/
def stabilityAction (percent_from_par : ℚ) (risk_level : Nat)
    (is_receiver is_receiver_below_expected : Bool) : String :=
  if percent_from_par < 0.1 then "STABLE"
  else if risk_level > 100 then "HIGH_RISK_NO_ACTION"
  else if (is_receiver && is_receiver_below_expected)
      || (!is_receiver && !is_receiver_below_expected) then "CHECK_ONLY"
  else "PAY"

/-- `percent_from_par` as computed by `check_stability` from the
post-reconciliation tracker. -/
def percentFromPar (sc : StableChannel) : ℚ :=
  |(sc.receiver_usd - sc.expected_usd) / sc.expected_usd * 100|

/-- The outcome of one `check_stability` evaluation: the mutated tracker,
the audit events emitted, and every call made to the payment trigger
(amount in msats, counterparty). -/
structure StabilityResult where
  sc : StableChannel
  events : List AuditEvent
  payments : List (ℚ × Nat)
deriving DecidableEq, Repr

/-- The actions carried by the `STABILITY_CHECK` events of a result. -/
def resultActions (r : StabilityResult) : List String :=
  r.events.filterMap AuditEvent.checkAction

/-- The tail of `check_stability` after a successful reconciliation: the
deviation computation, action selection, `STABILITY_CHECK` audit, and the
payment attempt when the action is PAY.  `payResult` is the outcome the
payment trigger (`spontaneous_payment().send`) would return. -/
def check_stability_core (payResult : Except Unit Nat) (sc : StableChannel) :
    StabilityResult :=
  let dollars_from_par := sc.receiver_usd - sc.expected_usd
  let percent_from_par := percentFromPar sc
  let is_receiver_below_expected := decide (sc.receiver_usd < sc.expected_usd)
  let action := stabilityAction percent_from_par sc.risk_level sc.is_receiver
      is_receiver_below_expected
  let checkEv := AuditEvent.STABILITY_CHECK sc.expected_usd sc.receiver_usd
      percent_from_par sc.latest_price action sc.is_receiver sc.risk_level
  if action ≠ "PAY" then ⟨sc, [checkEv], []⟩
  else
    let amt := USD.to_msats dollars_from_par sc.latest_price
    match payResult with
    | .ok payment_id =>
      ⟨{ sc with payment_made := true },
        [checkEv, .STABILITY_PAYMENT_SENT amt payment_id sc.counterparty],
        [(amt, sc.counterparty)]⟩
    | .error _ =>
      ⟨sc, [checkEv, .STABILITY_PAYMENT_FAILED amt sc.counterparty],
        [(amt, sc.counterparty)]⟩

/-- `check_stability` from `src/stable.rs`.  Returns `none` when the
reconciliation's unsigned subtraction underflows; otherwise `some` of the
evaluation's outcome. -/
def check_stability (node : Node) (oracle : Oracle) (payResult : Except Unit Nat)
    (sc : StableChannel) (price : ℚ) : Option StabilityResult :=
  match (if price > 0 then some price
         else if oracle.cached_price > 0 then some oracle.cached_price
         else none) with
  | none => some ⟨sc, [.STABILITY_SKIP], []⟩
  | some current_price =>
    let sc1 := { sc with latest_price := current_price }
    match update_balances node oracle sc1 with
    | none => none
    | some (success, sc2, evs) =>
      if success then
        let r := check_stability_core payResult sc2
        some ⟨r.sc, evs ++ r.events, r.payments⟩
      else
        some ⟨sc2, evs ++ [.BALANCE_UPDATE_FAILED sc2.channel_id], []⟩

/-! ## Shared facts about `update_balances` -/

/-- "Our" channel-side balance in sats, as `update_balances` computes it:
outbound capacity in sats plus the unspendable punishment reserve
(default 0 when absent). -/
def our_balance (c : ChannelDetails) : Nat :=
  c.outbound_capacity_msat / 1000 + c.unspendable_punishment_reserve.getD 0

lemma balance_refreshed_channel_id (node : Node) (oracle : Oracle) (sc : StableChannel) :
    (balance_refreshed node oracle sc).channel_id = sc.channel_id := rfl

lemma balance_refreshed_is_receiver (node : Node) (oracle : Oracle) (sc : StableChannel) :
    (balance_refreshed node oracle sc).is_receiver = sc.is_receiver := rfl

lemma update_balances_of_underflow
    (node : Node) (oracle : Oracle) (sc : StableChannel) (c : ChannelDetails)
    (hsel : selectChannel node.channels sc.channel_id = some c)
    (hgt : c.channel_value_sats < our_balance c) :
    update_balances node oracle sc = none := by
  have hid := balance_refreshed_channel_id node oracle sc
  simp only [update_balances, hid, hsel]
  simp only [reconcile_channel, u64_sub, our_balance] at *
  rw [if_neg (by omega)]
  rfl

lemma update_balances_of_match
    (node : Node) (oracle : Oracle) (sc : StableChannel) (c : ChannelDetails)
    (hsel : selectChannel node.channels sc.channel_id = some c)
    (hle : our_balance c ≤ c.channel_value_sats) :
    ∃ sc' evs, update_balances node oracle sc = some (true, sc', evs) ∧
      ((sc.is_receiver = true →
          sc'.receiver_btc = our_balance c ∧
          sc'.provider_btc = c.channel_value_sats - our_balance c) ∧
       (sc.is_receiver = false →
          sc'.provider_btc = our_balance c ∧
          sc'.receiver_btc = c.channel_value_sats - our_balance c)) := by
  have hid := balance_refreshed_channel_id node oracle sc
  simp only [update_balances, hid, hsel]
  simp only [reconcile_channel, u64_sub, our_balance] at *
  rw [if_pos hle]
  simp only [Option.map_some]
  by_cases hz : (balance_refreshed node oracle sc).channel_id = zeroChannelId
  · rw [if_pos hz]
    cases hrec : sc.is_receiver
    · rw [if_neg (by simp [balance_refreshed_is_receiver, hrec])]
      exact ⟨_, _, rfl, by simp [hrec], fun _ => ⟨rfl, rfl⟩⟩
    · rw [if_pos (by simp [balance_refreshed_is_receiver, hrec])]
      exact ⟨_, _, rfl, fun _ => ⟨rfl, rfl⟩, by simp [hrec]⟩
  · rw [if_neg hz]
    cases hrec : sc.is_receiver
    · rw [if_neg (by simp [balance_refreshed_is_receiver, hrec])]
      exact ⟨_, _, rfl, by simp [hrec], fun _ => ⟨rfl, rfl⟩⟩
    · rw [if_pos (by simp [balance_refreshed_is_receiver, hrec])]
      exact ⟨_, _, rfl, fun _ => ⟨rfl, rfl⟩, by simp [hrec]⟩

/-! ## Claim theorems about the Balance Reconciler -/

/-- C6: on a successful reconciliation of channel `c`, "our" side's balance
`X = our_balance c` and the counterparty's `channel_value − X` are assigned
to `receiver_btc`/`provider_btc` according to `is_receiver`: the receiver
side gets `X` when we are the receiver, and the assignment swaps
otherwise. -/
theorem update_balances_directional_assignment
    (node : Node) (oracle : Oracle) (sc : StableChannel) (c : ChannelDetails)
    (hsel : selectChannel node.channels sc.channel_id = some c)
    (hle : our_balance c ≤ c.channel_value_sats) :
    ∃ sc' evs, update_balances node oracle sc = some (true, sc', evs) ∧
      ((sc.is_receiver = true →
          sc'.receiver_btc = our_balance c ∧
          sc'.provider_btc = c.channel_value_sats - our_balance c) ∧
       (sc.is_receiver = false →
          sc'.provider_btc = our_balance c ∧
          sc'.receiver_btc = c.channel_value_sats - our_balance c)) :=
  update_balances_of_match node oracle sc c hsel hle

/-- C7: after every successful reconciliation that matched channel `c`, the
stored channel-side balances are complementary:
`receiver_btc + provider_btc = channel_value_sats`. -/
theorem update_balances_complementary
    (node : Node) (oracle : Oracle) (sc : StableChannel) (c : ChannelDetails)
    (b : Bool) (sc' : StableChannel) (evs : List AuditEvent)
    (hsel : selectChannel node.channels sc.channel_id = some c)
    (hub : update_balances node oracle sc = some (b, sc', evs)) :
    sc'.receiver_btc + sc'.provider_btc = c.channel_value_sats := by
  by_cases hle : our_balance c ≤ c.channel_value_sats
  · obtain ⟨sc'', evs', heq, h1, h2⟩ := update_balances_of_match node oracle sc c hsel hle
    rw [heq] at hub
    simp only [Option.some.injEq, Prod.mk.injEq] at hub
    obtain ⟨-, h2', -⟩ := hub
    subst h2'
    cases hrec : sc.is_receiver
    · obtain ⟨ha, hb⟩ := h2 hrec
      rw [ha, hb]
      exact Nat.sub_add_cancel hle
    · obtain ⟨ha, hb⟩ := h1 hrec
      rw [ha, hb]
      exact Nat.add_sub_cancel' hle
  · rw [update_balances_of_underflow node oracle sc c hsel (by omega)] at hub
    exact absurd hub (by simp)

/-- C10: the counterparty balance is the unguarded `u64` subtraction
`channel_value_sats − our_balance`; whenever `our_balance` exceeds the
capacity the subtraction underflows (the run aborts, `none`), and whenever
it does not, the whole computation is total. -/
theorem update_balances_underflow_guard
    (node : Node) (oracle : Oracle) (sc : StableChannel) (c : ChannelDetails)
    (hsel : selectChannel node.channels sc.channel_id = some c) :
    (c.channel_value_sats < our_balance c → update_balances node oracle sc = none) ∧
    (our_balance c ≤ c.channel_value_sats →
      ∃ sc' evs, update_balances node oracle sc = some (true, sc', evs)) := by
  constructor
  · intro hgt
    exact update_balances_of_underflow node oracle sc c hsel hgt
  · intro hle
    obtain ⟨sc', evs, heq, -⟩ := update_balances_of_match node oracle sc c hsel hle
    exact ⟨sc', evs, heq⟩

/-! ## Concrete instances used as inputs of witnesses and examples -/

/-- A sample channel of capacity 200000 sats with 94000 sats outbound on
our side and no punishment reserve. -/
def sampleChannel : ChannelDetails :=
  { channel_id := ChannelId.from_bytes (List.replicate 32 7)
    channel_value_sats := 200000
    outbound_capacity_msat := 94000000
    unspendable_punishment_reserve := none }

/-- A node runtime reporting 5000 sats on-chain and the one sample
channel. -/
def sampleNode : Node :=
  { total_onchain_balance_sats := 5000, channels := [sampleChannel] }

/-- An oracle with an empty cache and a failing fetch. -/
def quietOracle : Oracle := { cached_price := 0, fetched_price := .error () }

/-- A receiver-side tracker pegged to 100 USD, tracking the sample
channel. -/
def sampleTracker : StableChannel :=
  { channel_id := ChannelId.from_bytes (List.replicate 32 7)
    is_receiver := true
    counterparty := 42
    expected_usd := 100
    latest_price := 100000
    onchain_btc := 0
    onchain_usd := 0
    receiver_btc := 11
    receiver_usd := 12
    provider_btc := 13
    provider_usd := 14
    risk_level := 10
    payment_made := false }

/-- A tracker whose channel id (all-nines) matches no channel of
`sampleNode`. -/
def orphanTracker : StableChannel :=
  { sampleTracker with channel_id := ChannelId.from_bytes (List.replicate 32 9) }

/-- C1: at a concrete tracker whose channel id matches no channel of the
runtime, `update_balances` leaves the four receiver/provider fields at
their previous values and emits no event — but, diverging from the claim
and the spec, it reports success `true`, not `false`. -/
theorem update_balances_no_match_reports_true :
    (update_balances sampleNode quietOracle orphanTracker).map
      (fun r => (r.1, r.2.1.receiver_btc, r.2.1.receiver_usd, r.2.1.provider_btc,
                 r.2.1.provider_usd, r.2.2.length)) =
    some (true, orphanTracker.receiver_btc, orphanTracker.receiver_usd,
          orphanTracker.provider_btc, orphanTracker.provider_usd, 0) := by
  norm_num [update_balances, balance_refreshed, resolved_price, selectChannel,
    zeroChannelId, ChannelId.from_bytes, orphanTracker, sampleTracker, sampleNode,
    sampleChannel, quietOracle, List.find?, List.replicate, Bitcoin.from_sats,
    USD.from_bitcoin]

/-- The tracker produced by reconciling `sampleTracker` against
`sampleNode` at price 100000: 94000 sats / 94 USD on the receiver side,
106000 sats / 106 USD on the provider side. -/
def reconciledTracker : StableChannel :=
  { sampleTracker with
    onchain_btc := 5000
    onchain_usd := 5
    receiver_btc := 94000
    receiver_usd := 94
    provider_btc := 106000
    provider_usd := 106 }

lemma update_balances_sample_eq :
    update_balances sampleNode quietOracle sampleTracker =
      some (true, reconciledTracker,
        [AuditEvent.BALANCE_UPDATE (ChannelId.from_bytes (List.replicate 32 7))
          94000 106000 94 106 100000]) := by
  norm_num [update_balances, balance_refreshed, resolved_price, reconcile_channel,
    selectChannel, u64_sub, zeroChannelId, ChannelId.from_bytes, sampleTracker,
    sampleNode, sampleChannel, quietOracle, reconciledTracker, List.find?,
    List.replicate, Bitcoin.from_sats, USD.from_bitcoin]

theorem update_balances_directional_assignment_witness :
    ∃ sc' evs,
      update_balances sampleNode quietOracle sampleTracker = some (true, sc', evs) ∧
      ((sampleTracker.is_receiver = true →
          sc'.receiver_btc = our_balance sampleChannel ∧
          sc'.provider_btc = sampleChannel.channel_value_sats - our_balance sampleChannel) ∧
       (sampleTracker.is_receiver = false →
          sc'.provider_btc = our_balance sampleChannel ∧
          sc'.receiver_btc = sampleChannel.channel_value_sats - our_balance sampleChannel)) :=
  update_balances_directional_assignment sampleNode quietOracle sampleTracker
    sampleChannel (by decide) (by decide)

theorem update_balances_complementary_witness :
    reconciledTracker.receiver_btc + reconciledTracker.provider_btc =
      sampleChannel.channel_value_sats :=
  update_balances_complementary sampleNode quietOracle sampleTracker sampleChannel
    true reconciledTracker
    [AuditEvent.BALANCE_UPDATE (ChannelId.from_bytes (List.replicate 32 7))
      94000 106000 94 106 100000]
    (by decide) update_balances_sample_eq

/-- A channel whose our-side balance (200000 outbound sats plus a 5-sat
reserve) exceeds its 100-sat capacity. -/
def overdrawnChannel : ChannelDetails :=
  { channel_id := ChannelId.from_bytes (List.replicate 32 8)
    channel_value_sats := 100
    outbound_capacity_msat := 200000000
    unspendable_punishment_reserve := some 5 }

/-- A node reporting only the overdrawn channel. -/
def overdrawnNode : Node :=
  { total_onchain_balance_sats := 0, channels := [overdrawnChannel] }

/-- A tracker pinned to the overdrawn channel. -/
def overdrawnTracker : StableChannel :=
  { sampleTracker with channel_id := ChannelId.from_bytes (List.replicate 32 8) }

theorem update_balances_underflow_guard_witness :
    (update_balances overdrawnNode quietOracle overdrawnTracker = none) ∧
    (∃ sc' evs,
      update_balances sampleNode quietOracle sampleTracker = some (true, sc', evs)) :=
  ⟨(update_balances_underflow_guard overdrawnNode quietOracle overdrawnTracker
      overdrawnChannel (by decide)).1 (by decide),
   (update_balances_underflow_guard sampleNode quietOracle sampleTracker
      sampleChannel (by decide)).2 (by decide)⟩

/-! ## Shared facts about the Stability Decision Engine -/

lemma stabilityAction_stable (p : ℚ) (risk : Nat) (ir below : Bool)
    (h : p < 0.1) : stabilityAction p risk ir below = "STABLE" := by
  simp [stabilityAction, h]

lemma stabilityAction_high_risk (p : ℚ) (risk : Nat) (ir below : Bool)
    (h1 : ¬ p < 0.1) (h2 : 100 < risk) :
    stabilityAction p risk ir below = "HIGH_RISK_NO_ACTION" := by
  simp [stabilityAction, h1, h2]

lemma stabilityAction_check_only (p : ℚ) (risk : Nat) (ir below : Bool)
    (h1 : ¬ p < 0.1) (h2 : risk ≤ 100) (h3 : ir = below) :
    stabilityAction p risk ir below = "CHECK_ONLY" := by
  subst h3
  cases ir <;> simp [stabilityAction, h1, Nat.not_lt.mpr h2]

lemma stabilityAction_pay (p : ℚ) (risk : Nat) (ir below : Bool)
    (h1 : ¬ p < 0.1) (h2 : risk ≤ 100) (h3 : ir ≠ below) :
    stabilityAction p risk ir below = "PAY" := by
  cases ir <;> cases below <;>
    simp_all [stabilityAction, h1, Nat.not_lt.mpr h2]

/-- Whatever the action, one `check_stability_core` evaluation emits
exactly one `STABILITY_CHECK` event, carrying that action. -/
lemma resultActions_core (pay : Except Unit Nat) (sc : StableChannel) :
    resultActions (check_stability_core pay sc) =
      [stabilityAction (percentFromPar sc) sc.risk_level sc.is_receiver
        (decide (sc.receiver_usd < sc.expected_usd))] := by
  simp only [check_stability_core]
  split
  · simp [resultActions, AuditEvent.checkAction]
  · cases pay <;> simp [resultActions, AuditEvent.checkAction]

lemma core_eq_of_ne_pay (pay : Except Unit Nat) (sc : StableChannel)
    (h : stabilityAction (percentFromPar sc) sc.risk_level sc.is_receiver
      (decide (sc.receiver_usd < sc.expected_usd)) ≠ "PAY") :
    check_stability_core pay sc =
      ⟨sc, [AuditEvent.STABILITY_CHECK sc.expected_usd sc.receiver_usd
        (percentFromPar sc) sc.latest_price
        (stabilityAction (percentFromPar sc) sc.risk_level sc.is_receiver
          (decide (sc.receiver_usd < sc.expected_usd)))
        sc.is_receiver sc.risk_level], []⟩ := by
  simp only [check_stability_core]
  rw [if_pos (by simpa using h)]

lemma core_eq_of_pay_ok (pid : Nat) (sc : StableChannel)
    (h : stabilityAction (percentFromPar sc) sc.risk_level sc.is_receiver
      (decide (sc.receiver_usd < sc.expected_usd)) = "PAY") :
    check_stability_core (Except.ok pid) sc =
      ⟨{ sc with payment_made := true },
        [AuditEvent.STABILITY_CHECK sc.expected_usd sc.receiver_usd
          (percentFromPar sc) sc.latest_price "PAY" sc.is_receiver sc.risk_level,
         AuditEvent.STABILITY_PAYMENT_SENT
          (USD.to_msats (sc.receiver_usd - sc.expected_usd) sc.latest_price)
          pid sc.counterparty],
        [(USD.to_msats (sc.receiver_usd - sc.expected_usd) sc.latest_price,
          sc.counterparty)]⟩ := by
  simp only [check_stability_core, h]
  rw [if_neg (by simp)]

lemma core_eq_of_pay_error (e : Unit) (sc : StableChannel)
    (h : stabilityAction (percentFromPar sc) sc.risk_level sc.is_receiver
      (decide (sc.receiver_usd < sc.expected_usd)) = "PAY") :
    check_stability_core (Except.error e) sc =
      ⟨sc,
        [AuditEvent.STABILITY_CHECK sc.expected_usd sc.receiver_usd
          (percentFromPar sc) sc.latest_price "PAY" sc.is_receiver sc.risk_level,
         AuditEvent.STABILITY_PAYMENT_FAILED
          (USD.to_msats (sc.receiver_usd - sc.expected_usd) sc.latest_price)
          sc.counterparty],
        [(USD.to_msats (sc.receiver_usd - sc.expected_usd) sc.latest_price,
          sc.counterparty)]⟩ := by
  simp only [check_stability_core, h]
  rw [if_neg (by simp)]

/-! ## Claim theorems about the Stability Decision Engine -/

/-- C4: when the deviation is at least 0.1 percent, the risk level is at
most 100, and the local party is on the wrong side to correct (receiver
short of par while we are the receiver, or receiver at/above par while we
are the provider), the selected action is CHECK_ONLY and the payment
trigger is never called. -/
theorem check_stability_wrong_direction_check_only
    (pay : Except Unit Nat) (sc : StableChannel)
    (hp : (0.1:ℚ) ≤ percentFromPar sc) (hr : sc.risk_level ≤ 100)
    (hd : (sc.is_receiver = true ∧ sc.receiver_usd < sc.expected_usd) ∨
          (sc.is_receiver = false ∧ ¬ sc.receiver_usd < sc.expected_usd)) :
    resultActions (check_stability_core pay sc) = ["CHECK_ONLY"] ∧
    (check_stability_core pay sc).payments = [] := by
  have heq : sc.is_receiver = decide (sc.receiver_usd < sc.expected_usd) := by
    rcases hd with ⟨h1, h2⟩ | ⟨h1, h2⟩ <;> simp [h1, h2]
  have ha := stabilityAction_check_only (percentFromPar sc) sc.risk_level
    sc.is_receiver (decide (sc.receiver_usd < sc.expected_usd))
    (not_lt.mpr hp) hr heq
  refine ⟨by rw [resultActions_core, ha], ?_⟩
  rw [core_eq_of_ne_pay pay sc (by rw [ha]; decide)]

/-- C5: when the deviation is at least 0.1 percent and the risk level
exceeds 100, the selected action is HIGH_RISK_NO_ACTION — whatever the
direction flags — and the payment trigger is never called. -/
theorem check_stability_high_risk_no_action
    (pay : Except Unit Nat) (sc : StableChannel)
    (hp : (0.1:ℚ) ≤ percentFromPar sc) (hr : 100 < sc.risk_level) :
    resultActions (check_stability_core pay sc) = ["HIGH_RISK_NO_ACTION"] ∧
    (check_stability_core pay sc).payments = [] := by
  have ha := stabilityAction_high_risk (percentFromPar sc) sc.risk_level
    sc.is_receiver (decide (sc.receiver_usd < sc.expected_usd))
    (not_lt.mpr hp) hr
  refine ⟨by rw [resultActions_core, ha], ?_⟩
  rw [core_eq_of_ne_pay pay sc (by rw [ha]; decide)]

/-- C8: when neither the explicit price argument nor the cached price is
positive, `check_stability` emits exactly one `STABILITY_SKIP` event,
makes no payment call, performs no reconciliation, and returns the tracker
entirely unchanged. -/
theorem check_stability_skip_no_valid_price
    (node : Node) (oracle : Oracle) (pay : Except Unit Nat)
    (sc : StableChannel) (price : ℚ)
    (h1 : ¬ 0 < price) (h2 : ¬ 0 < oracle.cached_price) :
    check_stability node oracle pay sc price =
      some ⟨sc, [AuditEvent.STABILITY_SKIP], []⟩ := by
  simp [check_stability, h1, h2]

/-- C9: on a PAY evaluation, a successful trigger sets `payment_made` and
emits `STABILITY_PAYMENT_SENT`; a failed trigger leaves `payment_made` at
its prior value and emits `STABILITY_PAYMENT_FAILED`; either way exactly
one payment call is made (no retry). -/
theorem check_stability_payment_outcome
    (sc : StableChannel) (pid : Nat) (e : Unit)
    (hp : (0.1:ℚ) ≤ percentFromPar sc) (hr : sc.risk_level ≤ 100)
    (hd : (sc.is_receiver = true ∧ ¬ sc.receiver_usd < sc.expected_usd) ∨
          (sc.is_receiver = false ∧ sc.receiver_usd < sc.expected_usd)) :
    ((check_stability_core (Except.ok pid) sc).sc.payment_made = true ∧
     (check_stability_core (Except.ok pid) sc).events.map AuditEvent.tag =
        ["STABILITY_CHECK", "STABILITY_PAYMENT_SENT"] ∧
     (check_stability_core (Except.ok pid) sc).payments.length = 1) ∧
    ((check_stability_core (Except.error e) sc).sc.payment_made = sc.payment_made ∧
     (check_stability_core (Except.error e) sc).events.map AuditEvent.tag =
        ["STABILITY_CHECK", "STABILITY_PAYMENT_FAILED"] ∧
     (check_stability_core (Except.error e) sc).payments.length = 1) := by
  have hne : sc.is_receiver ≠ decide (sc.receiver_usd < sc.expected_usd) := by
    rcases hd with ⟨h1, h2⟩ | ⟨h1, h2⟩ <;> simp [h1, h2]
  have ha := stabilityAction_pay (percentFromPar sc) sc.risk_level
    sc.is_receiver (decide (sc.receiver_usd < sc.expected_usd))
    (not_lt.mpr hp) hr hne
  rw [core_eq_of_pay_ok pid sc ha, core_eq_of_pay_error e sc ha]
  simp [AuditEvent.tag]

/-- The tracker of the spec's worked example after reconciliation:
receiver side holds 94 USD against a 100 USD peg, we are the receiver,
risk level 10. -/
def wrongWayTracker : StableChannel :=
  { sampleTracker with receiver_usd := 94 }

/-- Like `wrongWayTracker` but with risk level 101. -/
def riskyTracker : StableChannel :=
  { wrongWayTracker with risk_level := 101 }

/-- A receiver-side tracker sitting exactly on the peg: 100 USD against a
100 USD peg. -/
def calmTracker : StableChannel :=
  { sampleTracker with receiver_usd := 100 }

/-- A receiver-side tracker 6 percent above the peg: 106 USD against a
100 USD peg — the configuration whose selected action is PAY. -/
def payTracker : StableChannel :=
  { sampleTracker with receiver_usd := 106 }

/-- A receiver-side tracker exactly 0.1 percent above the peg: 1001 USD
against a 1000 USD peg. -/
def borderTracker : StableChannel :=
  { sampleTracker with expected_usd := 1000, receiver_usd := 1001 }

theorem check_stability_wrong_direction_check_only_witness :
    resultActions (check_stability_core (Except.ok 7) wrongWayTracker) = ["CHECK_ONLY"] ∧
    (check_stability_core (Except.ok 7) wrongWayTracker).payments = [] :=
  check_stability_wrong_direction_check_only (Except.ok 7) wrongWayTracker
    (by norm_num [percentFromPar, wrongWayTracker, sampleTracker])
    (by decide)
    (Or.inl ⟨rfl, by norm_num [wrongWayTracker, sampleTracker]⟩)

theorem check_stability_high_risk_no_action_witness :
    resultActions (check_stability_core (Except.ok 7) riskyTracker) = ["HIGH_RISK_NO_ACTION"] ∧
    (check_stability_core (Except.ok 7) riskyTracker).payments = [] :=
  check_stability_high_risk_no_action (Except.ok 7) riskyTracker
    (by norm_num [percentFromPar, riskyTracker, wrongWayTracker, sampleTracker])
    (by decide)

theorem check_stability_skip_no_valid_price_witness :
    check_stability sampleNode quietOracle (Except.ok 7) sampleTracker 0 =
      some ⟨sampleTracker, [AuditEvent.STABILITY_SKIP], []⟩ :=
  check_stability_skip_no_valid_price sampleNode quietOracle (Except.ok 7)
    sampleTracker 0 (by norm_num) (by norm_num [quietOracle])

theorem check_stability_payment_outcome_witness :
    ((check_stability_core (Except.ok 7) payTracker).sc.payment_made = true ∧
     (check_stability_core (Except.ok 7) payTracker).events.map AuditEvent.tag =
        ["STABILITY_CHECK", "STABILITY_PAYMENT_SENT"] ∧
     (check_stability_core (Except.ok 7) payTracker).payments.length = 1) ∧
    ((check_stability_core (Except.error ()) payTracker).sc.payment_made =
        payTracker.payment_made ∧
     (check_stability_core (Except.error ()) payTracker).events.map AuditEvent.tag =
        ["STABILITY_CHECK", "STABILITY_PAYMENT_FAILED"] ∧
     (check_stability_core (Except.error ()) payTracker).payments.length = 1) :=
  check_stability_payment_outcome payTracker 7 ()
    (by norm_num [percentFromPar, payTracker, sampleTracker])
    (by decide)
    (Or.inl ⟨rfl, by norm_num [payTracker, sampleTracker]⟩)

/-- C3 counterexample: at a deviation of exactly 0.1 percent (1001 USD
against a 1000 USD peg) the source's strict `< 0.1` comparison fails, so
the action is PAY — not STABLE as the claim states. -/
theorem check_stability_deadband_boundary :
    percentFromPar borderTracker = 0.1 ∧
    resultActions (check_stability_core (Except.ok 7) borderTracker) = ["PAY"] ∧
    (["PAY"] : List String) ≠ ["STABLE"] := by
  have hpp : percentFromPar borderTracker = 0.1 := by
    norm_num [percentFromPar, borderTracker, sampleTracker]
  refine ⟨hpp, ?_, by decide⟩
  rw [resultActions_core]
  rw [stabilityAction_pay _ _ _ _
    (by rw [hpp]; norm_num)
    (by decide)
    (by norm_num [borderTracker, sampleTracker])]

/-- C3 (amended): strictly below the 0.1-percent deadband the action is
STABLE and no payment call occurs; at or above it, with risk level at most
100 and the direction favorable, the action is PAY. -/
theorem check_stability_deadband
    (pay : Except Unit Nat) (sc : StableChannel)
    (hexp : sc.expected_usd ≠ 0) :
    (percentFromPar sc < 0.1 →
      resultActions (check_stability_core pay sc) = ["STABLE"] ∧
      (check_stability_core pay sc).payments = []) ∧
    ((0.1:ℚ) ≤ percentFromPar sc → sc.risk_level ≤ 100 →
      ((sc.is_receiver = true ∧ ¬ sc.receiver_usd < sc.expected_usd) ∨
       (sc.is_receiver = false ∧ sc.receiver_usd < sc.expected_usd)) →
      resultActions (check_stability_core pay sc) = ["PAY"]) := by
  constructor
  · intro hlt
    have ha := stabilityAction_stable (percentFromPar sc) sc.risk_level
      sc.is_receiver (decide (sc.receiver_usd < sc.expected_usd)) hlt
    refine ⟨by rw [resultActions_core, ha], ?_⟩
    rw [core_eq_of_ne_pay pay sc (by rw [ha]; decide)]
  · intro hp hr hd
    have hne : sc.is_receiver ≠ decide (sc.receiver_usd < sc.expected_usd) := by
      rcases hd with ⟨h1, h2⟩ | ⟨h1, h2⟩ <;> simp [h1, h2]
    rw [resultActions_core, stabilityAction_pay _ _ _ _ (not_lt.mpr hp) hr hne]

theorem check_stability_deadband_witness :
    (resultActions (check_stability_core (Except.ok 7) calmTracker) = ["STABLE"] ∧
     (check_stability_core (Except.ok 7) calmTracker).payments = []) ∧
    resultActions (check_stability_core (Except.ok 7) payTracker) = ["PAY"] :=
  ⟨(check_stability_deadband (Except.ok 7) calmTracker
      (by norm_num [calmTracker, sampleTracker])).1
      (by norm_num [percentFromPar, calmTracker, sampleTracker]),
   (check_stability_deadband (Except.ok 7) payTracker
      (by norm_num [payTracker, sampleTracker])).2
      (by norm_num [percentFromPar, payTracker, sampleTracker]) (by decide)
      (Or.inl ⟨rfl, by norm_num [payTracker, sampleTracker]⟩)⟩

/-- C2 counterexample: running the full `check_stability` pipeline on the
spec's worked example (peg 100 USD, reconciled receiver balance 94 USD,
`is_receiver = true`, risk level 10, price 100000) selects CHECK_ONLY —
not PAY as the claim states — because the receiver being short of par
while we are the receiver is the source's CHECK_ONLY branch. -/
theorem check_stability_spec_example_not_pay :
    (check_stability sampleNode quietOracle (Except.ok 7) sampleTracker 100000).map
      resultActions = some ["CHECK_ONLY"] ∧
    (some ["CHECK_ONLY"] : Option (List String)) ≠ some ["PAY"] := by
  refine ⟨?_, by decide⟩
  norm_num [check_stability, update_balances, balance_refreshed, resolved_price,
    reconcile_channel, check_stability_core, stabilityAction, percentFromPar,
    selectChannel, u64_sub, get_current_price, USD.from_bitcoin, USD.to_msats,
    Bitcoin.from_sats, zeroChannelId, ChannelId.from_bytes, resultActions,
    AuditEvent.checkAction, sampleNode, quietOracle, sampleTracker, sampleChannel,
    List.filterMap, List.find?, List.head?, List.replicate]

/-- C2 (amended): on the spec's worked example the computed
`percent_from_par` is 6.0 and the selected action is CHECK_ONLY, with no
payment call made. -/
theorem check_stability_spec_example_check_only :
    (check_stability sampleNode quietOracle (Except.ok 7) sampleTracker 100000).map
      (fun r => (r.events.filterMap AuditEvent.checkPercent, resultActions r,
                 r.payments)) =
    some ([6], ["CHECK_ONLY"], []) := by
  norm_num [check_stability, update_balances, balance_refreshed, resolved_price,
    reconcile_channel, check_stability_core, stabilityAction, percentFromPar,
    selectChannel, u64_sub, get_current_price, USD.from_bitcoin, USD.to_msats,
    Bitcoin.from_sats, zeroChannelId, ChannelId.from_bytes, resultActions,
    AuditEvent.checkAction, AuditEvent.checkPercent, sampleNode, quietOracle,
    sampleTracker, sampleChannel, List.filterMap, List.find?, List.head?,
    List.replicate]
  rw [if_neg (by decide : ¬ ("CHECK_ONLY" : String) = "PAY")]
